import Mathlib

/-!
Verification of the Replike rep-counting engine (src/app/pose/PoseRepCounter.tsx and
the snapshots in src/unnamed/part_006).

The engine is embedded shallowly: TypeScript numbers are modelled by `ℚ` (every
literal that appears in the code is a decimal fraction, hence exact in `ℚ`), the
per-exercise state machines become pure functions on an explicit `RepState`, and
frame streams become lists folded through the per-frame update.  The two
transcendental geometry helpers of the source, `angleDeg` (law-of-cosines plus
`acos`) and `dist` (`Math.hypot`), are abstracted as function parameters
(`AngleFn`, `DistFn`): no verified property depends on their values, only on the
comparisons the classifiers perform with them.
-/

namespace Replike

/-- `phase` values of the source `RepState` type. -/
inductive Phase
  | unknown
  | closed
  | «open»
  | up
  | down
deriving DecidableEq, Repr

/-- The exercise ids of the live component (six-exercise version). -/
inductive ExerciseId
  | jumping_jacks
  | squats
  | lunges
  | high_knees
  | jump_squats
  | burpees
deriving DecidableEq, Repr

/-- `type DecisionKind = "none" | "rep" | "reject"`. -/
inductive DecisionKind
  | none
  | rep
  | reject
deriving DecidableEq, Repr

/-- `lastSide`: `"left" | "right" | "none"`. -/
inductive Side
  | left
  | right
  | none
deriving DecidableEq, Repr

/-- A MediaPipe `NormalizedLandmark` restricted to the fields the classifiers
read: 2D position and the optional visibility score.  The `z` coordinate is
never used by any classifier. -/
structure Landmark where
  x : ℚ
  y : ℚ
  visibility : Option ℚ
deriving DecidableEq, Repr

/-- The source `RepState` record (live six-exercise version, with the decision
event fields). -/
structure RepState where
  exercise : ExerciseId
  repCount : ℕ
  phase : Phase
  lastPhaseChangeMs : ℚ
  lastRepMs : ℚ
  reachedTarget : Bool
  lastSide : Side
  feedback : String
  decisionId : ℕ
  decisionKind : DecisionKind
  decisionMessage : String
deriving DecidableEq, Repr

/-- `SquatCalibration`. -/
structure SquatCalibration where
  topKneeAngle : ℚ
  bottomKneeAngle : ℚ
deriving DecidableEq, Repr

/-- `LungeCalibration`. -/
structure LungeCalibration where
  topKneeAngle : ℚ
  bottomKneeAngle : ℚ
deriving DecidableEq, Repr

/-- `JumpSquatCalibration`. -/
structure JumpSquatCalibration where
  topKneeAngle : ℚ
  bottomKneeAngle : ℚ
deriving DecidableEq, Repr

/-- `HighKneesCalibration`. -/
structure HighKneesCalibration where
  upLift : ℚ
  downLift : ℚ
deriving DecidableEq, Repr

/-- `JumpingJackCalibration`. -/
structure JumpingJackCalibration where
  openAnkleRatio : ℚ
  closedAnkleRatio : ℚ
  openArmsLift : ℚ
  closedArmsLift : ℚ
deriving DecidableEq, Repr

/-- `clamp01(x) = Math.min(1, Math.max(0, x))`. -/
def clamp01 (x : ℚ) : ℚ := min 1 (max 0 x)

/-- `clamp(x, lo, hi) = Math.min(hi, Math.max(lo, x))` (bar-reference version). -/
def clamp (x lo hi : ℚ) : ℚ := min hi (max lo x)

/-- `avg(a, b) = (a + b) / 2`. -/
def avg (a b : ℚ) : ℚ := (a + b) / 2

/-- `getLandmark(landmarks, idx)`: `landmarks[idx]`, `null` when out of range. -/
def getLandmark (landmarks : List Landmark) (idx : ℕ) : Option Landmark :=
  landmarks[idx]?

/-- `isLandmarkConfident(lm, minVis)`: false for a missing landmark, true when
the landmark carries no numeric visibility, otherwise `visibility >= minVis`. -/
def isLandmarkConfident (lm : Option Landmark) (minVis : ℚ) : Bool :=
  match lm with
  | Option.none => false
  | Option.some l =>
    match l.visibility with
    | Option.none => true
    | Option.some v => decide (v ≥ minVis)

/-- Fallback used to strip the `Option` after a confidence gate has already
guaranteed presence (the source uses the TypeScript `!` assertion there). -/
def lm! (o : Option Landmark) : Landmark := o.getD ⟨0, 0, Option.none⟩

/-- Renders `(p * 100).toFixed(0)`: nearest integer, ties towards `+∞`,
exactly the ECMAScript `toFixed(0)` rounding on exact decimal inputs. -/
def fmtPct (p : ℚ) : String := toString (round (p * 100))

/-- Abstraction of `angleDeg(a, b, c)` (three-point angle in degrees via
`acos`; transcendental, so left abstract — all verified properties hold for
every angle function). -/
def AngleFn : Type := Landmark → Landmark → Landmark → ℚ

/-- Abstraction of `dist(a, b)` (`Math.hypot`; transcendental, left abstract). -/
def DistFn : Type := Landmark → Landmark → ℚ

/-- The initial / reset `RepState` (`useState` initialiser and the
exercise-switch reset effect). -/
def initialRepState (ex : ExerciseId) : RepState :=
  { exercise := ex
    repCount := 0
    phase := Phase.unknown
    lastPhaseChangeMs := 0
    lastRepMs := 0
    reachedTarget := false
    lastSide := Side.none
    feedback := ""
    decisionId := 0
    decisionKind := DecisionKind.none
    decisionMessage := "" }

/-! ## Squat classifier (`updateSquatState`) -/

/-- The knee-angle confidence gate of `updateSquatState`: hips, knees and
ankles (landmarks 23–28) each at visibility ≥ 0.4. -/
def minSquatVisible (landmarks : List Landmark) : Bool :=
  isLandmarkConfident (getLandmark landmarks 23) 0.4 &&
  isLandmarkConfident (getLandmark landmarks 24) 0.4 &&
  isLandmarkConfident (getLandmark landmarks 25) 0.4 &&
  isLandmarkConfident (getLandmark landmarks 26) 0.4 &&
  isLandmarkConfident (getLandmark landmarks 27) 0.4 &&
  isLandmarkConfident (getLandmark landmarks 28) 0.4

/-- The body of `updateSquatState` after the knee angle
`kneeAngle = Math.min(lKneeAngle, rKneeAngle)` has been computed.  Every
threshold, branch and field mutation mirrors the source statement for
statement; the conditional mutations of the final `return` are written as
conditional field values guarded by `edge` (the counting-edge test
`prev.phase === "down" && nextPhase === "up"`) and `success`
(`reachedTarget && nowMs - lastRepMs > minRepMs`). -/
def updateSquatStateCore (prev : RepState) (kneeAngle nowMs : ℚ)
    (calib : Option SquatCalibration) : RepState :=
  let top : ℚ := match calib with | Option.some c => c.topKneeAngle | Option.none => 175
  let bottom : ℚ := match calib with | Option.some c => c.bottomKneeAngle | Option.none => 110
  let downEnter : ℚ := match calib with | Option.some _ => bottom + 10 | Option.none => 115
  let downExit : ℚ := match calib with | Option.some _ => bottom + 25 | Option.none => 135
  let upEnter : ℚ := match calib with | Option.some _ => top - 8 | Option.none => 165
  let upExit : ℚ := match calib with | Option.some _ => top - 18 | Option.none => 155
  let minRepMs : ℚ := 700
  let isDown : Bool :=
    if prev.phase = Phase.down then decide (kneeAngle < downExit) else decide (kneeAngle < downEnter)
  let isUp : Bool :=
    if prev.phase = Phase.up then decide (kneeAngle > upExit) else decide (kneeAngle > upEnter)
  let minPhaseMs : ℚ := 220
  let canSwitch : Bool := decide (nowMs - prev.lastPhaseChangeMs > minPhaseMs)
  let nextPhase : Phase :=
    if prev.phase = Phase.unknown then (if isDown then Phase.down else Phase.up)
    else if canSwitch then
      if decide (prev.phase = Phase.up) && isDown then Phase.down
      else if decide (prev.phase = Phase.down) && isUp then Phase.up
      else prev.phase
    else prev.phase
  let reachedTarget0 : Bool := if nextPhase = Phase.down then true else prev.reachedTarget
  let depthPct : ℚ := clamp01 ((top - kneeAngle) / max (top - bottom) (1 / 1000000))
  let feedback : String :=
    if decide (kneeAngle < downEnter) then "Depth: " ++ fmtPct depthPct ++ "% (bottom). Drive up."
    else if decide (depthPct > 0.45) then "Depth: " ++ fmtPct depthPct ++ "% (go lower)."
    else "Depth: " ++ fmtPct depthPct ++ "% (start)."
  let edge : Bool := decide (prev.phase = Phase.down) && decide (nextPhase = Phase.up)
  let success : Bool := reachedTarget0 && decide (nowMs - prev.lastRepMs > minRepMs)
  { prev with
    repCount := if edge && success then prev.repCount + 1 else prev.repCount
    phase := nextPhase
    lastPhaseChangeMs := if nextPhase ≠ prev.phase then nowMs else prev.lastPhaseChangeMs
    lastRepMs := if edge && success then nowMs else prev.lastRepMs
    reachedTarget := if edge && success then false else reachedTarget0
    feedback := feedback
    decisionId := if edge then prev.decisionId + 1 else prev.decisionId
    decisionKind :=
      if edge then (if success then DecisionKind.rep else DecisionKind.reject)
      else DecisionKind.none
    decisionMessage :=
      if edge then
        (if success then "Rep counted."
         else if reachedTarget0 then "Too fast. Slow down." else "Not deep enough.")
      else "" }

/-- `updateSquatState`: gate first (`if (!minVisible) return { ...prev, phase:
"unknown" }`), then the knee-angle core on
`min (angleDeg lHip lKnee lAnkle) (angleDeg rHip rKnee rAnkle)`. -/
def updateSquatState (ang : AngleFn) (prev : RepState) (landmarks : List Landmark)
    (nowMs : ℚ) (calib : Option SquatCalibration) : RepState :=
  if minSquatVisible landmarks then
    let lHip := lm! (getLandmark landmarks 23)
    let rHip := lm! (getLandmark landmarks 24)
    let lKnee := lm! (getLandmark landmarks 25)
    let rKnee := lm! (getLandmark landmarks 26)
    let lAnkle := lm! (getLandmark landmarks 27)
    let rAnkle := lm! (getLandmark landmarks 28)
    let kneeAngle := min (ang lHip lKnee lAnkle) (ang rHip rKnee rAnkle)
    updateSquatStateCore prev kneeAngle nowMs calib
  else { prev with phase := Phase.unknown }

/-- Runs the squat core over a list of (knee angle, timestamp) frames and
returns the state after each frame. -/
def squatTrace (s : RepState) : List (ℚ × ℚ) → List RepState
  | [] => []
  | (a, t) :: rest =>
    let s' := updateSquatStateCore s a t Option.none
    s' :: squatTrace s' rest

/-! ## Lunge classifier (`updateLungeState`) -/

/-- String form of a `Side` (used by the lunge and high-knees feedback). -/
def sideStr : Side → String
  | Side.left => "left"
  | Side.right => "right"
  | Side.none => "none"

/-- The confidence gate of `updateLungeState`: landmarks 23–28 at ≥ 0.4. -/
def minLungeVisible (landmarks : List Landmark) : Bool :=
  minSquatVisible landmarks

/-- The body of `updateLungeState` after the two knee angles have been
computed.  Note the source declares `decisionId` / `decisionKind` /
`decisionMessage` but never modifies them: the returned decision fields are
`prev.decisionId`, `"none"`, `""` on every path, including the counting
edge. -/
def updateLungeStateCore (prev : RepState) (leftAngle rightAngle nowMs : ℚ)
    (calib : Option LungeCalibration) : RepState :=
  let activeSide : Side := if leftAngle < rightAngle then Side.left else Side.right
  let activeAngle : ℚ := min leftAngle rightAngle
  let top : ℚ := match calib with | Option.some c => c.topKneeAngle | Option.none => 175
  let bottom : ℚ := match calib with | Option.some c => c.bottomKneeAngle | Option.none => 115
  let downEnter : ℚ := match calib with | Option.some _ => bottom + 10 | Option.none => 120
  let downExit : ℚ := match calib with | Option.some _ => bottom + 25 | Option.none => 140
  let upEnter : ℚ := match calib with | Option.some _ => top - 8 | Option.none => 170
  let upExit : ℚ := match calib with | Option.some _ => top - 18 | Option.none => 160
  let minPhaseMs : ℚ := 220
  let minRepMs : ℚ := 750
  let canSwitch : Bool := decide (nowMs - prev.lastPhaseChangeMs > minPhaseMs)
  let isDown : Bool :=
    if prev.phase = Phase.down then decide (activeAngle < downExit)
    else decide (activeAngle < downEnter)
  let isUp : Bool :=
    if prev.phase = Phase.up then decide (activeAngle > upExit)
    else decide (activeAngle > upEnter)
  let nextPhase : Phase :=
    if prev.phase = Phase.unknown then (if isDown then Phase.down else Phase.up)
    else if canSwitch then
      if decide (prev.phase = Phase.up) && isDown then Phase.down
      else if decide (prev.phase = Phase.down) && isUp then Phase.up
      else prev.phase
    else prev.phase
  let depthPct : ℚ := clamp01 ((top - activeAngle) / max (top - bottom) (1 / 1000000))
  let feedback : String :=
    if decide (activeAngle < downEnter) then
      "Lunge (" ++ sideStr activeSide ++ ") depth: " ++ fmtPct depthPct ++ "%. Push up."
    else if decide (depthPct > 0.45) then
      "Lunge (" ++ sideStr activeSide ++ ") depth: " ++ fmtPct depthPct ++ "%. Go lower."
    else "Lunge (" ++ sideStr activeSide ++ ") depth: " ++ fmtPct depthPct ++ "%."
  let reachedTarget0 : Bool := if nextPhase = Phase.down then true else prev.reachedTarget
  let lastSide0 : Side := if nextPhase = Phase.down then activeSide else prev.lastSide
  let edge : Bool := decide (prev.phase = Phase.down) && decide (nextPhase = Phase.up)
  let success : Bool := reachedTarget0 && decide (nowMs - prev.lastRepMs > minRepMs)
  { prev with
    repCount := if edge && success then prev.repCount + 1 else prev.repCount
    phase := nextPhase
    lastPhaseChangeMs := if nextPhase ≠ prev.phase then nowMs else prev.lastPhaseChangeMs
    lastRepMs := if edge && success then nowMs else prev.lastRepMs
    reachedTarget := if edge && success then false else reachedTarget0
    lastSide := lastSide0
    feedback := feedback
    decisionId := prev.decisionId
    decisionKind := DecisionKind.none
    decisionMessage := "" }

/-- `updateLungeState`: gate, then the two-knee-angle core. -/
def updateLungeState (ang : AngleFn) (prev : RepState) (landmarks : List Landmark)
    (nowMs : ℚ) (calib : Option LungeCalibration) : RepState :=
  if minLungeVisible landmarks then
    let lHip := lm! (getLandmark landmarks 23)
    let rHip := lm! (getLandmark landmarks 24)
    let lKnee := lm! (getLandmark landmarks 25)
    let rKnee := lm! (getLandmark landmarks 26)
    let lAnkle := lm! (getLandmark landmarks 27)
    let rAnkle := lm! (getLandmark landmarks 28)
    updateLungeStateCore prev (ang lHip lKnee lAnkle) (ang rHip rKnee rAnkle) nowMs calib
  else { prev with phase := Phase.unknown, feedback := "Step back so hips/knees/ankles are visible." }

/-! ## High-knees classifier (`updateHighKneesState`) -/

/-- The confidence gate of `updateHighKneesState`: hips and knees (23–26) at
≥ 0.35. -/
def minHighKneesVisible (landmarks : List Landmark) : Bool :=
  isLandmarkConfident (getLandmark landmarks 23) 0.35 &&
  isLandmarkConfident (getLandmark landmarks 24) 0.35 &&
  isLandmarkConfident (getLandmark landmarks 25) 0.35 &&
  isLandmarkConfident (getLandmark landmarks 26) 0.35

/-- The body of `updateHighKneesState` after the two knee lifts
(`hipY - kneeY`) have been computed.  `count` and `reject` mirror the two
branches of the `sideUp !== "none"` block. -/
def updateHighKneesStateCore (prev : RepState) (leftLift rightLift nowMs : ℚ)
    (calib : Option HighKneesCalibration) : RepState :=
  let upThreshold : ℚ :=
    match calib with | Option.some c => (c.upLift + c.downLift) / 2 | Option.none => 0.05
  let leftUp : Bool := decide (leftLift > upThreshold)
  let rightUp : Bool := decide (rightLift > upThreshold)
  let sideUp : Side :=
    if leftUp && !rightUp then Side.left
    else if rightUp && !leftUp then Side.right
    else Side.none
  let minRepMs : ℚ := 300
  let lift : ℚ := max leftLift rightLift
  let liftPct : ℚ :=
    match calib with
    | Option.some c => clamp01 ((lift - c.downLift) / max (c.upLift - c.downLift) (1 / 1000000))
    | Option.none => clamp01 ((lift - 0.02) / 0.12)
  let feedback : String :=
    if sideUp = Side.none then "Lift: " ++ fmtPct liftPct ++ "%. Drive one knee higher."
    else "Lift: " ++ fmtPct liftPct ++ "%. Knee up (" ++ sideStr sideUp ++ "). Alternate."
  let canCount : Bool := decide (nowMs - prev.lastRepMs > minRepMs)
  let alternated : Bool := decide (prev.lastSide = Side.none) || decide (prev.lastSide ≠ sideUp)
  let count : Bool := decide (sideUp ≠ Side.none) && (canCount && alternated)
  let rejected : Bool := decide (sideUp ≠ Side.none) && (canCount && !alternated)
  { prev with
    repCount := if count then prev.repCount + 1 else prev.repCount
    phase := if sideUp = Side.none then Phase.down else Phase.up
    lastPhaseChangeMs := prev.lastPhaseChangeMs
    lastRepMs := if count then nowMs else prev.lastRepMs
    reachedTarget := true
    lastSide := if count then sideUp else prev.lastSide
    feedback := feedback
    decisionId := if count || rejected then prev.decisionId + 1 else prev.decisionId
    decisionKind :=
      if count then DecisionKind.rep
      else if rejected then DecisionKind.reject
      else DecisionKind.none
    decisionMessage :=
      if count then "Rep counted."
      else if rejected then "Alternate legs for clean reps."
      else "" }

/-- `updateHighKneesState`: gate, then the lift core (no transcendental
geometry: the lifts are plain coordinate differences). -/
def updateHighKneesState (prev : RepState) (landmarks : List Landmark)
    (nowMs : ℚ) (calib : Option HighKneesCalibration) : RepState :=
  if minHighKneesVisible landmarks then
    let lHip := lm! (getLandmark landmarks 23)
    let rHip := lm! (getLandmark landmarks 24)
    let lKnee := lm! (getLandmark landmarks 25)
    let rKnee := lm! (getLandmark landmarks 26)
    let hipY := avg lHip.y rHip.y
    updateHighKneesStateCore prev (hipY - lKnee.y) (hipY - rKnee.y) nowMs calib
  else { prev with phase := Phase.unknown, feedback := "Make sure hips and knees are visible." }

/-! ## Jumping-jack classifier (`updateJumpingJackState`, live version with
default spread thresholds 1.45 / 1.25; the intermediate snapshot in
`src/unnamed/part_006` differs only in numeric constants) -/

/-- The confidence gate of `updateJumpingJackState`: shoulders at the 0.5
default, wrists/ankles/nose at 0.4. -/
def minJumpingJackVisible (landmarks : List Landmark) : Bool :=
  isLandmarkConfident (getLandmark landmarks 11) 0.5 &&
  isLandmarkConfident (getLandmark landmarks 12) 0.5 &&
  isLandmarkConfident (getLandmark landmarks 15) 0.4 &&
  isLandmarkConfident (getLandmark landmarks 16) 0.4 &&
  isLandmarkConfident (getLandmark landmarks 27) 0.4 &&
  isLandmarkConfident (getLandmark landmarks 28) 0.4 &&
  isLandmarkConfident (getLandmark landmarks 0) 0.4

/-- The body of `updateJumpingJackState` after the ankle-to-shoulder ratio and
the arms lift (`headY - wristsY`) have been computed. -/
def updateJumpingJackStateCore (prev : RepState) (ankleToShoulderRatio armsLift nowMs : ℚ)
    (calib : Option JumpingJackCalibration) : RepState :=
  let defaultArmsUp : Bool := decide (armsLift > 0.03)
  let openEnter : ℚ :=
    match calib with | Option.some c => c.openAnkleRatio | Option.none => 1.45
  let openExit : ℚ :=
    match calib with
    | Option.some c => min c.openAnkleRatio (max c.closedAnkleRatio 1.1)
    | Option.none => 1.25
  let legsOpenEnter : ℚ := openEnter
  let legsOpenExit : ℚ := openExit
  let legsOpen : Bool :=
    if prev.phase = Phase.«open» then decide (ankleToShoulderRatio > legsOpenExit)
    else decide (ankleToShoulderRatio > legsOpenEnter)
  let armsUp : Bool :=
    match calib with
    | Option.some c =>
      if prev.phase = Phase.«open» then decide (armsLift > c.openArmsLift * 0.7)
      else decide (armsLift > c.openArmsLift * 0.85)
    | Option.none => defaultArmsUp
  let isOpen : Bool := armsUp && legsOpen
  let isClosed : Bool := !isOpen
  let minPhaseMs : ℚ := 180
  let canSwitch : Bool := decide (nowMs - prev.lastPhaseChangeMs > minPhaseMs)
  let minRepMs : ℚ := 500
  let nextPhase : Phase :=
    if prev.phase = Phase.unknown then (if isOpen then Phase.«open» else Phase.closed)
    else if canSwitch then
      if decide (prev.phase = Phase.closed) && isOpen then Phase.«open»
      else if decide (prev.phase = Phase.«open») && isClosed then Phase.closed
      else prev.phase
    else prev.phase
  let reachedTarget0 : Bool := if nextPhase = Phase.«open» then true else prev.reachedTarget
  let openness : ℚ :=
    match calib with
    | Option.some c =>
      clamp01 ((ankleToShoulderRatio - c.closedAnkleRatio) /
        max (c.openAnkleRatio - c.closedAnkleRatio) (1 / 1000000))
    | Option.none => clamp01 ((ankleToShoulderRatio - 1.15) / 0.5)
  let liftPct : ℚ :=
    match calib with
    | Option.some c =>
      clamp01 ((armsLift - c.closedArmsLift) / max (c.openArmsLift - c.closedArmsLift) (1 / 1000000))
    | Option.none => clamp01 ((armsLift - 0.02) / 0.08)
  let feedback : String :=
    if isOpen then "Open: " ++ fmtPct openness ++ "% legs, " ++ fmtPct liftPct ++ "% arms."
    else "Aim for: " ++ fmtPct openness ++ "% legs, " ++ fmtPct liftPct ++ "% arms."
  let edge : Bool := decide (prev.phase = Phase.«open») && decide (nextPhase = Phase.closed)
  let success : Bool := reachedTarget0 && decide (nowMs - prev.lastRepMs > minRepMs)
  { prev with
    repCount := if edge && success then prev.repCount + 1 else prev.repCount
    phase := nextPhase
    lastPhaseChangeMs := if nextPhase ≠ prev.phase then nowMs else prev.lastPhaseChangeMs
    lastRepMs := if edge && success then nowMs else prev.lastRepMs
    reachedTarget := if edge && success then false else reachedTarget0
    feedback := feedback
    decisionId := if edge then prev.decisionId + 1 else prev.decisionId
    decisionKind :=
      if edge then (if success then DecisionKind.rep else DecisionKind.reject)
      else DecisionKind.none
    decisionMessage :=
      if edge then
        (if success then "Rep counted."
         else if reachedTarget0 then "Too fast. Slow down."
         else "Didn’t reach full open position.")
      else "" }

/-- `updateJumpingJackState`: gate, then the core on
`ankleWidth / max shoulderWidth 1e-6` and `nose.y - avg wristsY`. -/
def updateJumpingJackState (d : DistFn) (prev : RepState) (landmarks : List Landmark)
    (nowMs : ℚ) (calib : Option JumpingJackCalibration) : RepState :=
  if minJumpingJackVisible landmarks then
    let lShoulder := lm! (getLandmark landmarks 11)
    let rShoulder := lm! (getLandmark landmarks 12)
    let lWrist := lm! (getLandmark landmarks 15)
    let rWrist := lm! (getLandmark landmarks 16)
    let lAnkle := lm! (getLandmark landmarks 27)
    let rAnkle := lm! (getLandmark landmarks 28)
    let nose := lm! (getLandmark landmarks 0)
    let shoulderWidth := d lShoulder rShoulder
    let ankleWidth := d lAnkle rAnkle
    let ankleToShoulderRatio := ankleWidth / max shoulderWidth (1 / 1000000)
    let wristsY := avg lWrist.y rWrist.y
    let headY := nose.y
    let armsLift := headY - wristsY
    updateJumpingJackStateCore prev ankleToShoulderRatio armsLift nowMs calib
  else { prev with phase := Phase.unknown }

/-! ## Jump-squat classifier (`updateJumpSquatState`) -/

/-- The confidence gate of `updateJumpSquatState`: landmarks 23–28 at ≥ 0.4. -/
def minJumpSquatVisible (landmarks : List Landmark) : Bool :=
  minSquatVisible landmarks

/-- The body of `updateJumpSquatState` after the knee angle has been
computed (squat shape with its own thresholds and messages). -/
def updateJumpSquatStateCore (prev : RepState) (kneeAngle nowMs : ℚ)
    (calib : Option JumpSquatCalibration) : RepState :=
  let top : ℚ := match calib with | Option.some c => c.topKneeAngle | Option.none => 175
  let bottom : ℚ := match calib with | Option.some c => c.bottomKneeAngle | Option.none => 110
  let downEnter : ℚ := match calib with | Option.some _ => bottom + 12 | Option.none => 118
  let downExit : ℚ := match calib with | Option.some _ => bottom + 28 | Option.none => 140
  let upEnter : ℚ := match calib with | Option.some _ => top - 10 | Option.none => 165
  let upExit : ℚ := match calib with | Option.some _ => top - 20 | Option.none => 155
  let minRepMs : ℚ := 520
  let isDown : Bool :=
    if prev.phase = Phase.down then decide (kneeAngle < downExit)
    else decide (kneeAngle < downEnter)
  let isUp : Bool :=
    if prev.phase = Phase.up then decide (kneeAngle > upExit)
    else decide (kneeAngle > upEnter)
  let minPhaseMs : ℚ := 200
  let canSwitch : Bool := decide (nowMs - prev.lastPhaseChangeMs > minPhaseMs)
  let nextPhase : Phase :=
    if prev.phase = Phase.unknown then (if isDown then Phase.down else Phase.up)
    else if canSwitch then
      if decide (prev.phase = Phase.up) && isDown then Phase.down
      else if decide (prev.phase = Phase.down) && isUp then Phase.up
      else prev.phase
    else prev.phase
  let reachedTarget0 : Bool := if nextPhase = Phase.down then true else prev.reachedTarget
  let depthPct : ℚ := clamp01 ((top - kneeAngle) / max (top - bottom) (1 / 1000000))
  let feedback : String :=
    if decide (kneeAngle < downEnter) then "Depth: " ++ fmtPct depthPct ++ "% (explode up)."
    else if decide (depthPct > 0.45) then "Depth: " ++ fmtPct depthPct ++ "% (go lower)."
    else "Depth: " ++ fmtPct depthPct ++ "% (start)."
  let edge : Bool := decide (prev.phase = Phase.down) && decide (nextPhase = Phase.up)
  let success : Bool := reachedTarget0 && decide (nowMs - prev.lastRepMs > minRepMs)
  { prev with
    repCount := if edge && success then prev.repCount + 1 else prev.repCount
    phase := nextPhase
    lastPhaseChangeMs := if nextPhase ≠ prev.phase then nowMs else prev.lastPhaseChangeMs
    lastRepMs := if edge && success then nowMs else prev.lastRepMs
    reachedTarget := if edge && success then false else reachedTarget0
    feedback := feedback
    decisionId := if edge then prev.decisionId + 1 else prev.decisionId
    decisionKind :=
      if edge then (if success then DecisionKind.rep else DecisionKind.reject)
      else DecisionKind.none
    decisionMessage :=
      if edge then
        (if success then "Rep counted."
         else if reachedTarget0 then "Too fast. Control the landing." else "Not deep enough.")
      else "" }

/-- `updateJumpSquatState`: gate, then the knee-angle core. -/
def updateJumpSquatState (ang : AngleFn) (prev : RepState) (landmarks : List Landmark)
    (nowMs : ℚ) (calib : Option JumpSquatCalibration) : RepState :=
  if minJumpSquatVisible landmarks then
    let lHip := lm! (getLandmark landmarks 23)
    let rHip := lm! (getLandmark landmarks 24)
    let lKnee := lm! (getLandmark landmarks 25)
    let rKnee := lm! (getLandmark landmarks 26)
    let lAnkle := lm! (getLandmark landmarks 27)
    let rAnkle := lm! (getLandmark landmarks 28)
    let kneeAngle := min (ang lHip lKnee lAnkle) (ang rHip rKnee rAnkle)
    updateJumpSquatStateCore prev kneeAngle nowMs calib
  else { prev with phase := Phase.unknown }

/-! ## Burpee classifier (`updateBurpeeState`) -/

/-- The confidence gate of `updateBurpeeState`: shoulders, hips, knees and
ankles (11, 12, 23–28) at ≥ 0.35. -/
def minBurpeeVisible (landmarks : List Landmark) : Bool :=
  isLandmarkConfident (getLandmark landmarks 11) 0.35 &&
  isLandmarkConfident (getLandmark landmarks 12) 0.35 &&
  isLandmarkConfident (getLandmark landmarks 23) 0.35 &&
  isLandmarkConfident (getLandmark landmarks 24) 0.35 &&
  isLandmarkConfident (getLandmark landmarks 25) 0.35 &&
  isLandmarkConfident (getLandmark landmarks 26) 0.35 &&
  isLandmarkConfident (getLandmark landmarks 27) 0.35 &&
  isLandmarkConfident (getLandmark landmarks 28) 0.35

/-- The body of `updateBurpeeState` after the knee angle, shoulder height and
hip height have been computed.  The three body-configuration predicates and
the `plank > crouch > stand` precedence mirror the source. -/
def updateBurpeeStateCore (prev : RepState) (kneeAngle shoulderY hipY nowMs : ℚ) : RepState :=
  let standLike : Bool := decide (kneeAngle > 165) && decide (hipY < 0.58)
  let crouchLike : Bool := decide (kneeAngle < 145) || decide (hipY > 0.62)
  let plankLike : Bool :=
    decide (shoulderY > 0.52) && decide (hipY > 0.56) && decide (|hipY - shoulderY| < 0.16)
  let minPhaseMs : ℚ := 220
  let canSwitch : Bool := decide (nowMs - prev.lastPhaseChangeMs > minPhaseMs)
  let minRepMs : ℚ := 950
  let nextPhase : Phase :=
    if prev.phase = Phase.unknown then
      (if standLike then Phase.up else if plankLike then Phase.«open» else Phase.down)
    else if canSwitch then
      if plankLike then Phase.«open»
      else if crouchLike then Phase.down
      else if standLike then Phase.up
      else prev.phase
    else prev.phase
  let reachedTarget0 : Bool := if nextPhase = Phase.«open» then true else prev.reachedTarget
  let feedback : String :=
    if nextPhase = Phase.up then "Stand tall, then drop down."
    else if nextPhase = Phase.down then "Hands down, kick back to plank."
    else if nextPhase = Phase.«open» then "Plank. Drive feet in, then stand."
    else prev.feedback
  let edge : Bool := decide (prev.phase = Phase.«open») && decide (nextPhase = Phase.up)
  let success : Bool := reachedTarget0 && decide (nowMs - prev.lastRepMs > minRepMs)
  { prev with
    repCount := if edge && success then prev.repCount + 1 else prev.repCount
    phase := nextPhase
    lastPhaseChangeMs := if nextPhase ≠ prev.phase then nowMs else prev.lastPhaseChangeMs
    lastRepMs := if edge && success then nowMs else prev.lastRepMs
    reachedTarget := if edge && success then false else reachedTarget0
    feedback := feedback
    decisionId := if edge then prev.decisionId + 1 else prev.decisionId
    decisionKind :=
      if edge then (if success then DecisionKind.rep else DecisionKind.reject)
      else DecisionKind.none
    decisionMessage :=
      if edge then
        (if success then "Rep counted."
         else if reachedTarget0 then "Too fast. Control the rep." else "Hit a solid plank position.")
      else "" }

/-- `updateBurpeeState`: gate, then the configuration core. -/
def updateBurpeeState (ang : AngleFn) (prev : RepState) (landmarks : List Landmark)
    (nowMs : ℚ) : RepState :=
  if minBurpeeVisible landmarks then
    let lShoulder := lm! (getLandmark landmarks 11)
    let rShoulder := lm! (getLandmark landmarks 12)
    let lHip := lm! (getLandmark landmarks 23)
    let rHip := lm! (getLandmark landmarks 24)
    let lKnee := lm! (getLandmark landmarks 25)
    let rKnee := lm! (getLandmark landmarks 26)
    let lAnkle := lm! (getLandmark landmarks 27)
    let rAnkle := lm! (getLandmark landmarks 28)
    let shoulderY := avg lShoulder.y rShoulder.y
    let hipY := avg lHip.y rHip.y
    let kneeAngle := min (ang lHip lKnee lAnkle) (ang rHip rKnee rAnkle)
    updateBurpeeStateCore prev kneeAngle shoulderY hipY nowMs
  else { prev with phase := Phase.unknown, feedback := "Keep your full body in frame." }

/-! ## Rep quality classifier (`classifyRep`, quality snapshot) -/

/-- `type RepQualityLabel = "clean" | "ok" | "sloppy"`. -/
inductive RepQualityLabel
  | clean
  | ok
  | sloppy
deriving DecidableEq, Repr

/-- `classifyRep(exercise, romPct, tempoMs)` from the quality snapshot:
tempo gate first (sloppy when `0 < tempoMs < minTempo`), then the ROM%
bands, `ok` when ROM% is null. -/
def classifyRep (exercise : ExerciseId) (romPct : Option ℚ) (tempoMs : ℚ) : RepQualityLabel :=
  let minTempo : ℚ :=
    if exercise = ExerciseId.jumping_jacks then 380
    else if exercise = ExerciseId.high_knees then 300
    else if exercise = ExerciseId.jump_squats then 520
    else if exercise = ExerciseId.lunges then 750
    else if exercise = ExerciseId.squats then 700
    else 650
  if tempoMs > 0 ∧ tempoMs < minTempo then RepQualityLabel.sloppy
  else
    match romPct with
    | Option.none => RepQualityLabel.ok
    | Option.some r =>
      if r ≥ 70 then RepQualityLabel.clean
      else if r ≥ 50 then RepQualityLabel.ok
      else RepQualityLabel.sloppy

/-- The per-exercise minimum tempo exactly as the spec's words list it
(380ms jacks, 300ms high-knees, 520ms jump-squats, 700ms squats, 750ms
lunges, 650ms default). -/
def specMinTempo : ExerciseId → ℚ
  | ExerciseId.jumping_jacks => 380
  | ExerciseId.high_knees => 300
  | ExerciseId.jump_squats => 520
  | ExerciseId.squats => 700
  | ExerciseId.lunges => 750
  | ExerciseId.burpees => 650

/-- The quality label as the spec's words describe it, to compare with the
source-derived `classifyRep`: sloppy when tempo is positive and below the
minimum tempo; otherwise clean when ROM% ≥ 70, ok when 50 ≤ ROM% < 70,
sloppy when ROM% < 50, and ok when ROM% is undefined. -/
def classifyRepSpec (exercise : ExerciseId) (romPct : Option ℚ) (tempoMs : ℚ) :
    RepQualityLabel :=
  if 0 < tempoMs ∧ tempoMs < specMinTempo exercise then RepQualityLabel.sloppy
  else
    match romPct with
    | Option.none => RepQualityLabel.ok
    | Option.some r =>
      if 70 ≤ r then RepQualityLabel.clean
      else if 50 ≤ r then RepQualityLabel.ok
      else RepQualityLabel.sloppy

/-! ## Hands-free calibration (the `setAutoCalib` frame updater) -/

/-- The `autoCalib` React state: `{ active, step, stableMs, lastOkMs,
lastCaptureMs }`. -/
structure AutoCalibState where
  active : Bool
  step : ℕ
  stableMs : ℚ
  lastOkMs : ℚ
  lastCaptureMs : ℚ
deriving DecidableEq, Repr

/-- One evaluation of the hands-free calibration updater (the `setAutoCalib`
closure run once per landmark frame).  `okNow` abstracts
`isPoseStableForAutoCalibration(smoothed, s.step)` for the current frame;
the returned `Bool` reports whether this frame captured a calibration step
(`captureCalibrationFrame` was called).  `s.lastOkMs || now` is modelled as
`if s.lastOkMs = 0 then now else s.lastOkMs`, its exact JavaScript meaning
on non-negative timestamps. -/
def autoCalibUpdate (s : AutoCalibState) (okNow : Bool) (now : ℚ) : AutoCalibState × Bool :=
  if !s.active then (s, false)
  else
    let stableNeededMs : ℚ := 900
    let lastOkMs : ℚ := if okNow then (if s.lastOkMs = 0 then now else s.lastOkMs) else 0
    let stableMs : ℚ := if okNow then now - lastOkMs else 0
    let cooldownOk : Bool := decide (now - s.lastCaptureMs > 700)
    if okNow && decide (stableMs ≥ stableNeededMs) && cooldownOk then
      ({ s with
          step := if s.step = 0 then 1 else 0
          active := decide (s.step = 0)
          stableMs := 0
          lastOkMs := 0
          lastCaptureMs := now }, true)
    else ({ s with stableMs := stableMs, lastOkMs := lastOkMs }, false)

/-- The updater folded over a frame trace (each frame: the stability
predicate's value and the frame timestamp). -/
def autoCalibRunState (s : AutoCalibState) (frames : List (Bool × ℚ)) : AutoCalibState :=
  frames.foldl (fun st f => (autoCalibUpdate st f.1 f.2).1) s

/-- The per-frame capture flags of a trace. -/
def autoCalibRunCaptures (s : AutoCalibState) : List (Bool × ℚ) → List Bool
  | [] => []
  | f :: rest =>
    let r := autoCalibUpdate s f.1 f.2
    r.2 :: autoCalibRunCaptures r.1 rest

/-- Invariant of the updater along a processed prefix `L`: either no stable
streak is being tracked (`lastOkMs = 0`), or the subsystem is active and
`lastOkMs` is the timestamp of a stable frame of `L` such that every frame of
`L` from that timestamp on was stable. -/
def AutoCalibInv (s : AutoCalibState) (L : List (Bool × ℚ)) : Prop :=
  s.lastOkMs = 0 ∨
    (s.active = true ∧
      ∃ f ∈ L, f.1 = true ∧ f.2 = s.lastOkMs ∧ ∀ g ∈ L, g.2 ≥ s.lastOkMs → g.1 = true)

/-! ## Bar-reference locator (auto mode, pull-up snapshot) -/

/-- `BarLine`: normalized horizontal reference line. -/
structure BarLine where
  y : ℚ
  x1 : ℚ
  x2 : ℚ
deriving DecidableEq, Repr

/-- `BarAutoState`: `idle | sampling { samples, startedMs } | done`. -/
inductive BarAutoState
  | idle
  | sampling (samples : ℕ) (startedMs : ℚ)
  | done
deriving DecidableEq, Repr

/-- `median(values)` from the source: 0 on empty input; otherwise the middle
element of the ascending sort for odd length, the mean of the two middle
elements for even length.  (`[...values].sort((a, b) => a - b)` is the
ascending sort; on a linearly ordered type the sorted list is unique, so the
sorting algorithm is immaterial.) -/
def median (values : List ℚ) : ℚ :=
  if values.length = 0 then 0
  else
    let sorted := values.mergeSort (fun a b => decide (a ≤ b))
    let mid := sorted.length / 2
    if sorted.length % 2 = 1 then sorted.getD mid 0
    else (sorted.getD (mid - 1) 0 + sorted.getD mid 0) / 2

/-- The wrist-height sample pushed (or not) by the current frame: appended
only when both wrists are confident at ≥ 0.35. -/
def pushedBarSamples (samplesRef : List ℚ) (lWrist rWrist : Option Landmark) : List ℚ :=
  if isLandmarkConfident lWrist 0.35 && isLandmarkConfident rWrist 0.35 then
    samplesRef ++ [avg (lm! lWrist).y (lm! rWrist).y]
  else samplesRef

/-- One sampling-mode frame of the auto bar locator (the
`needsBar && barAuto.status === "sampling"` block): push the sample, then if
the ~900ms window elapsed either set the line from the median (≥ 10 samples)
and finish, or abort to idle; otherwise keep sampling.  Returns the new
samples ref, the new `barAuto` state and the (possibly updated) bar line. -/
def barAutoFrame (samplesRef : List ℚ) (startedMs nowMs : ℚ)
    (lWrist rWrist : Option Landmark) (barLine : Option BarLine) :
    List ℚ × BarAutoState × Option BarLine :=
  let samples := pushedBarSamples samplesRef lWrist rWrist
  let elapsed := nowMs - startedMs
  if elapsed > 900 then
    if samples.length ≥ 10 then
      let y := clamp (median samples - 0.02) 0.02 0.98
      ([], BarAutoState.done, Option.some ⟨y, 0.05, 0.95⟩)
    else ([], BarAutoState.idle, barLine)
  else (samples, BarAutoState.sampling samples.length startedMs, barLine)

/-! ## Gate-failure and phase-range lemmas (shared) -/

theorem autoCalibInv_step (s : AutoCalibState) (L : List (Bool × ℚ)) (f : Bool × ℚ)
    (hInv : AutoCalibInv s L) (hmono : ∀ g ∈ L, g.2 < f.2) :
    AutoCalibInv (autoCalibUpdate s f.1 f.2).1 (L ++ [f]) := by
  rcases f with ⟨ok, t⟩
  by_cases hact : s.active = true
  · by_cases hok : ok = true
    · by_cases h0 : s.lastOkMs = 0
      · unfold AutoCalibInv
        simp only [autoCalibUpdate, hact, hok, h0, Bool.not_true, Bool.false_eq_true, if_false,
          if_true, Bool.true_and, sub_self]
        split
        · exact Or.inl rfl
        · right
          refine ⟨rfl, ⟨true, t⟩,
            List.mem_append.2 (Or.inr (List.mem_singleton.2 rfl)), rfl, rfl, ?_⟩
          intro g hg hge
          rcases List.mem_append.1 hg with hgL | hgf
          · exact absurd hge (not_le.2 (by simpa using hmono g hgL))
          · rw [List.mem_singleton.1 hgf]
      · rcases hInv with h | ⟨_, f0, hf0L, hf0ok, hf0t, hall⟩
        · exact absurd h h0
        unfold AutoCalibInv
        simp only [autoCalibUpdate, hact, hok, h0, Bool.not_true, Bool.false_eq_true, if_false,
          if_true, Bool.true_and]
        split
        · exact Or.inl rfl
        · right
          refine ⟨rfl, f0, List.mem_append.2 (Or.inl hf0L), hf0ok, hf0t, ?_⟩
          intro g hg hge
          rcases List.mem_append.1 hg with hgL | hgf
          · exact hall g hgL hge
          · rw [List.mem_singleton.1 hgf]
    · have hokf : ok = false := by simpa using hok
      left
      simp [autoCalibUpdate, hact, hokf]
  · have hactf : s.active = false := by simpa using hact
    have hid : (autoCalibUpdate s ok t).1 = s := by
      simp [autoCalibUpdate, hactf]
    rw [hid]
    rcases hInv with h | ⟨ha, _⟩
    · exact Or.inl h
    · exact absurd ha (by simp [hactf])

/-- Along any strictly time-increasing trace started with `lastOkMs = 0`, the
invariant holds. -/
theorem autoCalibRunState_inv (s0 : AutoCalibState) (hstart : s0.lastOkMs = 0) :
    ∀ (L : List (Bool × ℚ)), List.Pairwise (fun a b => a.2 < b.2) L →
      AutoCalibInv (autoCalibRunState s0 L) L := by
  intro L
  induction L using List.reverseRecOn with
  | nil => intro _; exact Or.inl hstart
  | append_singleton L' f ih =>
    intro hpair
    have hpair' : List.Pairwise (fun a b : Bool × ℚ => a.2 < b.2) L' :=
      (List.pairwise_append.1 hpair).1
    have hmono : ∀ g ∈ L', g.2 < f.2 := by
      intro g hg
      exact (List.pairwise_append.1 hpair).2.2 g hg f (List.mem_singleton.2 rfl)
    have hrun : autoCalibRunState s0 (L' ++ [f]) =
        (autoCalibUpdate (autoCalibRunState s0 L') f.1 f.2).1 := by
      simp [autoCalibRunState, List.foldl_append]
    rw [hrun]
    have hL' := ih hpair'
    -- the invariant over L' extends to L' ++ [f] after one more step,
    -- but stated over the extended prefix
    exact autoCalibInv_step _ L' f hL' hmono

/-- Capture soundness of a single further frame after a trace. -/
theorem autoCalib_capture_sound (s0 : AutoCalibState) (L : List (Bool × ℚ)) (ok : Bool) (t : ℚ)
    (hstart : s0.lastOkMs = 0)
    (hpair : List.Pairwise (fun a b : Bool × ℚ => a.2 < b.2) L)
    (hcap : (autoCalibUpdate (autoCalibRunState s0 L) ok t).2 = true) :
    ok = true ∧
    t - (autoCalibRunState s0 L).lastCaptureMs > 700 ∧
    ∃ f ∈ L, f.1 = true ∧ t - f.2 ≥ 900 ∧ ∀ g ∈ L, g.2 ≥ f.2 → g.1 = true := by
  set s := autoCalibRunState s0 L with hs
  by_cases hact : s.active = true
  · by_cases hok : ok = true
    · by_cases h0 : s.lastOkMs = 0
      · exfalso
        simp only [autoCalibUpdate, hact, hok, h0, Bool.not_true, Bool.false_eq_true, if_false,
          if_true, Bool.true_and, sub_self] at hcap
        split at hcap
        · next hC =>
            have h900 := of_decide_eq_true (Bool.and_elim_left hC)
            norm_num at h900
        · next hC => simp at hcap
      · simp only [autoCalibUpdate, hact, hok, h0, Bool.not_true, Bool.false_eq_true, if_false,
          if_true, Bool.true_and] at hcap
        split at hcap
        · next hC =>
            have h900 := of_decide_eq_true (Bool.and_elim_left hC)
            have hcool := of_decide_eq_true (Bool.and_elim_right hC)
            rcases autoCalibRunState_inv s0 hstart L hpair with hinv | ⟨_, f0, hf0L, hf0ok, hf0t, hall⟩
            · exact absurd hinv h0
            refine ⟨hok, hcool, f0, hf0L, hf0ok, ?_, ?_⟩
            · rw [hf0t]
              exact h900
            · rw [hf0t]
              exact hall
        · next hC => simp at hcap
    · have hokf : ok = false := by simpa using hok
      exfalso
      simp [autoCalibUpdate, hact, hokf] at hcap
  · have hactf : s.active = false := by simpa using hact
    exfalso
    simp [autoCalibUpdate, hactf] at hcap


theorem updateSquatState_gate_fail (ang : AngleFn) (prev : RepState) (lms : List Landmark)
    (now : ℚ) (calib : Option SquatCalibration) (h : minSquatVisible lms = false) :
    updateSquatState ang prev lms now calib = { prev with phase := Phase.unknown } := by
  simp [updateSquatState, h]

theorem updateLungeState_gate_fail (ang : AngleFn) (prev : RepState) (lms : List Landmark)
    (now : ℚ) (calib : Option LungeCalibration) (h : minLungeVisible lms = false) :
    updateLungeState ang prev lms now calib =
      { prev with phase := Phase.unknown,
                  feedback := "Step back so hips/knees/ankles are visible." } := by
  simp [updateLungeState, h]

theorem updateHighKneesState_gate_fail (prev : RepState) (lms : List Landmark)
    (now : ℚ) (calib : Option HighKneesCalibration) (h : minHighKneesVisible lms = false) :
    updateHighKneesState prev lms now calib =
      { prev with phase := Phase.unknown,
                  feedback := "Make sure hips and knees are visible." } := by
  simp [updateHighKneesState, h]

theorem updateJumpingJackState_gate_fail (d : DistFn) (prev : RepState) (lms : List Landmark)
    (now : ℚ) (calib : Option JumpingJackCalibration) (h : minJumpingJackVisible lms = false) :
    updateJumpingJackState d prev lms now calib = { prev with phase := Phase.unknown } := by
  simp [updateJumpingJackState, h]

theorem updateJumpSquatState_gate_fail (ang : AngleFn) (prev : RepState) (lms : List Landmark)
    (now : ℚ) (calib : Option JumpSquatCalibration) (h : minJumpSquatVisible lms = false) :
    updateJumpSquatState ang prev lms now calib = { prev with phase := Phase.unknown } := by
  simp [updateJumpSquatState, h]

theorem updateBurpeeState_gate_fail (ang : AngleFn) (prev : RepState) (lms : List Landmark)
    (now : ℚ) (h : minBurpeeVisible lms = false) :
    updateBurpeeState ang prev lms now =
      { prev with phase := Phase.unknown, feedback := "Keep your full body in frame." } := by
  simp [updateBurpeeState, h]

theorem updateSquatStateCore_phase_ne_unknown (prev : RepState) (a now : ℚ)
    (calib : Option SquatCalibration) :
    (updateSquatStateCore prev a now calib).phase ≠ Phase.unknown := by
  by_cases h : prev.phase = Phase.unknown <;>
    simp only [updateSquatStateCore, h] <;> split_ifs <;> simp_all

theorem updateLungeStateCore_phase_ne_unknown (prev : RepState) (la ra now : ℚ)
    (calib : Option LungeCalibration) :
    (updateLungeStateCore prev la ra now calib).phase ≠ Phase.unknown := by
  by_cases h : prev.phase = Phase.unknown <;>
    simp only [updateLungeStateCore, h] <;> split_ifs <;> simp_all

theorem updateHighKneesStateCore_phase_ne_unknown (prev : RepState) (ll rl now : ℚ)
    (calib : Option HighKneesCalibration) :
    (updateHighKneesStateCore prev ll rl now calib).phase ≠ Phase.unknown := by
  simp only [updateHighKneesStateCore] <;> split_ifs <;> simp_all

theorem updateJumpingJackStateCore_phase_ne_unknown (prev : RepState) (ratio lift now : ℚ)
    (calib : Option JumpingJackCalibration) :
    (updateJumpingJackStateCore prev ratio lift now calib).phase ≠ Phase.unknown := by
  by_cases h : prev.phase = Phase.unknown <;>
    simp only [updateJumpingJackStateCore, h] <;> split_ifs <;> simp_all

theorem updateJumpSquatStateCore_phase_ne_unknown (prev : RepState) (a now : ℚ)
    (calib : Option JumpSquatCalibration) :
    (updateJumpSquatStateCore prev a now calib).phase ≠ Phase.unknown := by
  by_cases h : prev.phase = Phase.unknown <;>
    simp only [updateJumpSquatStateCore, h] <;> split_ifs <;> simp_all

theorem updateBurpeeStateCore_phase_ne_unknown (prev : RepState) (ka sy hy now : ℚ) :
    (updateBurpeeStateCore prev ka sy hy now).phase ≠ Phase.unknown := by
  by_cases h : prev.phase = Phase.unknown <;>
    simp only [updateBurpeeStateCore, h] <;> split_ifs <;> simp_all

/-! ## Theorems -/

/-- C3: the lunge classifier violates the every-classifier decision contract:
a completed down→up counting edge that counts the rep (repCount 0 → 1)
still returns `decisionKind = none` and an unchanged `decisionId` — the
attempt produces no decision event at all.  (The other five classifiers all
emit `rep`/`reject` on their counting edge; the lunge branch increments
`repCount` but never touches its decision fields.) -/
theorem lunge_counting_edge_emits_no_decision :
    (updateLungeStateCore
        { initialRepState ExerciseId.lunges with phase := Phase.down, reachedTarget := true }
        175 176 1000 Option.none).repCount = 1 ∧
    (updateLungeStateCore
        { initialRepState ExerciseId.lunges with phase := Phase.down, reachedTarget := true }
        175 176 1000 Option.none).phase = Phase.up ∧
    (updateLungeStateCore
        { initialRepState ExerciseId.lunges with phase := Phase.down, reachedTarget := true }
        175 176 1000 Option.none).decisionKind = DecisionKind.none ∧
    (updateLungeStateCore
        { initialRepState ExerciseId.lunges with phase := Phase.down, reachedTarget := true }
        175 176 1000 Option.none).decisionId = 0 := by
  with_unfolding_all decide

/-- C4 counterexample: two phase changes that happen with elapsed time below
the per-exercise minimum: (a) the squat classifier leaves `unknown` for `up`
at `now = 0` with `lastPhaseChangeMs = 0` (elapsed 0 ≤ 220); (b) the
high-knees classifier flips `down` → `up` one millisecond after its last
phase change (its phase field has no debounce at all). -/
theorem phase_change_without_min_elapsed_counterexample :
    ((updateSquatStateCore (initialRepState ExerciseId.squats) 175 0 Option.none).phase ≠
        (initialRepState ExerciseId.squats).phase ∧
      ¬((0 : ℚ) - (initialRepState ExerciseId.squats).lastPhaseChangeMs > 220)) ∧
    ((updateHighKneesStateCore
          { initialRepState ExerciseId.high_knees with
              phase := Phase.down, lastPhaseChangeMs := 500 }
          0.1 0 501 Option.none).phase ≠ Phase.down ∧
      ¬((501 : ℚ) - 500 > 180)) := by
  with_unfolding_all decide

/-- C4 (amended): for the five hysteresis classifiers (jumping jacks, squats,
lunges, jump squats, burpees), a phase change out of a known (non-`unknown`)
phase implies that the elapsed time since the last phase change exceeds the
per-exercise minimum phase duration (220ms squats/lunges/burpees, 200ms jump
squats, 180ms jumping jacks).  Transitions out of `unknown` (re-acquisition)
and the high-knees phase field (alternation-based, no debounce) are exempt. -/
theorem known_phase_change_requires_min_elapsed :
    (∀ (prev : RepState) (a now : ℚ) (calib : Option SquatCalibration),
      prev.phase ≠ Phase.unknown →
      (updateSquatStateCore prev a now calib).phase ≠ prev.phase →
      now - prev.lastPhaseChangeMs > 220) ∧
    (∀ (prev : RepState) (la ra now : ℚ) (calib : Option LungeCalibration),
      prev.phase ≠ Phase.unknown →
      (updateLungeStateCore prev la ra now calib).phase ≠ prev.phase →
      now - prev.lastPhaseChangeMs > 220) ∧
    (∀ (prev : RepState) (ratio lift now : ℚ) (calib : Option JumpingJackCalibration),
      prev.phase ≠ Phase.unknown →
      (updateJumpingJackStateCore prev ratio lift now calib).phase ≠ prev.phase →
      now - prev.lastPhaseChangeMs > 180) ∧
    (∀ (prev : RepState) (a now : ℚ) (calib : Option JumpSquatCalibration),
      prev.phase ≠ Phase.unknown →
      (updateJumpSquatStateCore prev a now calib).phase ≠ prev.phase →
      now - prev.lastPhaseChangeMs > 200) ∧
    (∀ (prev : RepState) (ka sy hy now : ℚ),
      prev.phase ≠ Phase.unknown →
      (updateBurpeeStateCore prev ka sy hy now).phase ≠ prev.phase →
      now - prev.lastPhaseChangeMs > 220) := by
  refine ⟨?_, ?_, ?_, ?_, ?_⟩
  · intro prev a now calib hk hch
    by_contra hc
    simp only [updateSquatStateCore, decide_eq_false hc] at hch
    simp [hk] at hch
  · intro prev la ra now calib hk hch
    by_contra hc
    simp only [updateLungeStateCore, decide_eq_false hc] at hch
    simp [hk] at hch
  · intro prev ratio lift now calib hk hch
    by_contra hc
    simp only [updateJumpingJackStateCore, decide_eq_false hc] at hch
    simp [hk] at hch
  · intro prev a now calib hk hch
    by_contra hc
    simp only [updateJumpSquatStateCore, decide_eq_false hc] at hch
    simp [hk] at hch
  · intro prev ka sy hy now hk hch
    by_contra hc
    simp only [updateBurpeeStateCore, decide_eq_false hc] at hch
    simp [hk] at hch

/-- C4 witness: a squat up→down transition at `now = 300` with the last phase
change at 0 satisfies the hypotheses, so the theorem yields 300 − 0 > 220. -/
theorem known_phase_change_requires_min_elapsed_witness :
    (300 : ℚ) -
      ({ initialRepState ExerciseId.squats with phase := Phase.up } : RepState).lastPhaseChangeMs >
      220 :=
  known_phase_change_requires_min_elapsed.1
    { initialRepState ExerciseId.squats with phase := Phase.up } 100 300 Option.none
    (by with_unfolding_all decide) (by with_unfolding_all decide)

/-- C5: for every classifier, a failed confidence gate returns
`phase = unknown` with `repCount`, `reachedTarget` and the rep/phase
timestamps carried over from the previous state; and consequently, for every
classifier, any frame whose resulting phase is `unknown` leaves `repCount`
unchanged. -/
theorem confidence_gate_failure_preserves_counting_state :
    ((∀ (ang : AngleFn) (prev : RepState) (lms : List Landmark) (now : ℚ)
        (calib : Option SquatCalibration), minSquatVisible lms = false →
        (updateSquatState ang prev lms now calib).phase = Phase.unknown ∧
        (updateSquatState ang prev lms now calib).repCount = prev.repCount ∧
        (updateSquatState ang prev lms now calib).reachedTarget = prev.reachedTarget ∧
        (updateSquatState ang prev lms now calib).lastRepMs = prev.lastRepMs ∧
        (updateSquatState ang prev lms now calib).lastPhaseChangeMs = prev.lastPhaseChangeMs) ∧
      (∀ (ang : AngleFn) (prev : RepState) (lms : List Landmark) (now : ℚ)
        (calib : Option LungeCalibration), minLungeVisible lms = false →
        (updateLungeState ang prev lms now calib).phase = Phase.unknown ∧
        (updateLungeState ang prev lms now calib).repCount = prev.repCount ∧
        (updateLungeState ang prev lms now calib).reachedTarget = prev.reachedTarget ∧
        (updateLungeState ang prev lms now calib).lastRepMs = prev.lastRepMs ∧
        (updateLungeState ang prev lms now calib).lastPhaseChangeMs = prev.lastPhaseChangeMs) ∧
      (∀ (prev : RepState) (lms : List Landmark) (now : ℚ)
        (calib : Option HighKneesCalibration), minHighKneesVisible lms = false →
        (updateHighKneesState prev lms now calib).phase = Phase.unknown ∧
        (updateHighKneesState prev lms now calib).repCount = prev.repCount ∧
        (updateHighKneesState prev lms now calib).reachedTarget = prev.reachedTarget ∧
        (updateHighKneesState prev lms now calib).lastRepMs = prev.lastRepMs ∧
        (updateHighKneesState prev lms now calib).lastPhaseChangeMs = prev.lastPhaseChangeMs) ∧
      (∀ (d : DistFn) (prev : RepState) (lms : List Landmark) (now : ℚ)
        (calib : Option JumpingJackCalibration), minJumpingJackVisible lms = false →
        (updateJumpingJackState d prev lms now calib).phase = Phase.unknown ∧
        (updateJumpingJackState d prev lms now calib).repCount = prev.repCount ∧
        (updateJumpingJackState d prev lms now calib).reachedTarget = prev.reachedTarget ∧
        (updateJumpingJackState d prev lms now calib).lastRepMs = prev.lastRepMs ∧
        (updateJumpingJackState d prev lms now calib).lastPhaseChangeMs =
          prev.lastPhaseChangeMs) ∧
      (∀ (ang : AngleFn) (prev : RepState) (lms : List Landmark) (now : ℚ)
        (calib : Option JumpSquatCalibration), minJumpSquatVisible lms = false →
        (updateJumpSquatState ang prev lms now calib).phase = Phase.unknown ∧
        (updateJumpSquatState ang prev lms now calib).repCount = prev.repCount ∧
        (updateJumpSquatState ang prev lms now calib).reachedTarget = prev.reachedTarget ∧
        (updateJumpSquatState ang prev lms now calib).lastRepMs = prev.lastRepMs ∧
        (updateJumpSquatState ang prev lms now calib).lastPhaseChangeMs =
          prev.lastPhaseChangeMs) ∧
      (∀ (ang : AngleFn) (prev : RepState) (lms : List Landmark) (now : ℚ),
        minBurpeeVisible lms = false →
        (updateBurpeeState ang prev lms now).phase = Phase.unknown ∧
        (updateBurpeeState ang prev lms now).repCount = prev.repCount ∧
        (updateBurpeeState ang prev lms now).reachedTarget = prev.reachedTarget ∧
        (updateBurpeeState ang prev lms now).lastRepMs = prev.lastRepMs ∧
        (updateBurpeeState ang prev lms now).lastPhaseChangeMs = prev.lastPhaseChangeMs)) ∧
    ((∀ (ang : AngleFn) (prev : RepState) (lms : List Landmark) (now : ℚ)
        (calib : Option SquatCalibration),
        (updateSquatState ang prev lms now calib).phase = Phase.unknown →
        (updateSquatState ang prev lms now calib).repCount = prev.repCount) ∧
      (∀ (ang : AngleFn) (prev : RepState) (lms : List Landmark) (now : ℚ)
        (calib : Option LungeCalibration),
        (updateLungeState ang prev lms now calib).phase = Phase.unknown →
        (updateLungeState ang prev lms now calib).repCount = prev.repCount) ∧
      (∀ (prev : RepState) (lms : List Landmark) (now : ℚ)
        (calib : Option HighKneesCalibration),
        (updateHighKneesState prev lms now calib).phase = Phase.unknown →
        (updateHighKneesState prev lms now calib).repCount = prev.repCount) ∧
      (∀ (d : DistFn) (prev : RepState) (lms : List Landmark) (now : ℚ)
        (calib : Option JumpingJackCalibration),
        (updateJumpingJackState d prev lms now calib).phase = Phase.unknown →
        (updateJumpingJackState d prev lms now calib).repCount = prev.repCount) ∧
      (∀ (ang : AngleFn) (prev : RepState) (lms : List Landmark) (now : ℚ)
        (calib : Option JumpSquatCalibration),
        (updateJumpSquatState ang prev lms now calib).phase = Phase.unknown →
        (updateJumpSquatState ang prev lms now calib).repCount = prev.repCount) ∧
      (∀ (ang : AngleFn) (prev : RepState) (lms : List Landmark) (now : ℚ),
        (updateBurpeeState ang prev lms now).phase = Phase.unknown →
        (updateBurpeeState ang prev lms now).repCount = prev.repCount)) := by
  refine ⟨⟨?_, ?_, ?_, ?_, ?_, ?_⟩, ?_, ?_, ?_, ?_, ?_, ?_⟩
  · intro ang prev lms now calib h
    rw [updateSquatState_gate_fail ang prev lms now calib h]
    simp
  · intro ang prev lms now calib h
    rw [updateLungeState_gate_fail ang prev lms now calib h]
    simp
  · intro prev lms now calib h
    rw [updateHighKneesState_gate_fail prev lms now calib h]
    simp
  · intro d prev lms now calib h
    rw [updateJumpingJackState_gate_fail d prev lms now calib h]
    simp
  · intro ang prev lms now calib h
    rw [updateJumpSquatState_gate_fail ang prev lms now calib h]
    simp
  · intro ang prev lms now h
    rw [updateBurpeeState_gate_fail ang prev lms now h]
    simp
  · intro ang prev lms now calib hu
    by_cases h : minSquatVisible lms = false
    · rw [updateSquatState_gate_fail ang prev lms now calib h]
    · rw [updateSquatState, if_pos (by simpa using h)] at hu
      exact (updateSquatStateCore_phase_ne_unknown prev _ now calib hu).elim
  · intro ang prev lms now calib hu
    by_cases h : minLungeVisible lms = false
    · rw [updateLungeState_gate_fail ang prev lms now calib h]
    · rw [updateLungeState, if_pos (by simpa using h)] at hu
      exact (updateLungeStateCore_phase_ne_unknown prev _ _ now calib hu).elim
  · intro prev lms now calib hu
    by_cases h : minHighKneesVisible lms = false
    · rw [updateHighKneesState_gate_fail prev lms now calib h]
    · rw [updateHighKneesState, if_pos (by simpa using h)] at hu
      exact (updateHighKneesStateCore_phase_ne_unknown prev _ _ now calib hu).elim
  · intro d prev lms now calib hu
    by_cases h : minJumpingJackVisible lms = false
    · rw [updateJumpingJackState_gate_fail d prev lms now calib h]
    · rw [updateJumpingJackState, if_pos (by simpa using h)] at hu
      exact (updateJumpingJackStateCore_phase_ne_unknown prev _ _ now calib hu).elim
  · intro ang prev lms now calib hu
    by_cases h : minJumpSquatVisible lms = false
    · rw [updateJumpSquatState_gate_fail ang prev lms now calib h]
    · rw [updateJumpSquatState, if_pos (by simpa using h)] at hu
      exact (updateJumpSquatStateCore_phase_ne_unknown prev _ now calib hu).elim
  · intro ang prev lms now hu
    by_cases h : minBurpeeVisible lms = false
    · rw [updateBurpeeState_gate_fail ang prev lms now h]
    · rw [updateBurpeeState, if_pos (by simpa using h)] at hu
      exact (updateBurpeeStateCore_phase_ne_unknown prev _ _ _ now hu).elim

/-- C5 witness: an empty landmark list fails the squat gate, and the frame at
`now = 5` leaves the counting state of the initial squat state untouched. -/
theorem confidence_gate_failure_preserves_counting_state_witness :
    (updateSquatState (fun _ _ _ => 0) (initialRepState ExerciseId.squats) [] 5
        Option.none).phase = Phase.unknown ∧
    (updateSquatState (fun _ _ _ => 0) (initialRepState ExerciseId.squats) [] 5
        Option.none).repCount = (initialRepState ExerciseId.squats).repCount ∧
    (updateSquatState (fun _ _ _ => 0) (initialRepState ExerciseId.squats) [] 5
        Option.none).reachedTarget = (initialRepState ExerciseId.squats).reachedTarget ∧
    (updateSquatState (fun _ _ _ => 0) (initialRepState ExerciseId.squats) [] 5
        Option.none).lastRepMs = (initialRepState ExerciseId.squats).lastRepMs ∧
    (updateSquatState (fun _ _ _ => 0) (initialRepState ExerciseId.squats) [] 5
        Option.none).lastPhaseChangeMs = (initialRepState ExerciseId.squats).lastPhaseChangeMs :=
  confidence_gate_failure_preserves_counting_state.1.1 (fun _ _ _ => 0)
    (initialRepState ExerciseId.squats) [] 5 Option.none (by with_unfolding_all decide)

/-- C10: a failed confidence gate carries the decision event fields
(`decisionId`, `decisionKind`, `decisionMessage`) over from the previous
state for every classifier, so a `rep` decision emitted on the immediately
preceding frame is still present in the state returned for the dropout
frame; the final conjunct shows a concrete squat rep at 1000ms whose `rep`
decision survives an empty-landmark dropout frame at 1300ms. -/
theorem gate_failure_preserves_decision_event :
    ((∀ (ang : AngleFn) (prev : RepState) (lms : List Landmark) (now : ℚ)
        (calib : Option SquatCalibration), minSquatVisible lms = false →
        (updateSquatState ang prev lms now calib).decisionId = prev.decisionId ∧
        (updateSquatState ang prev lms now calib).decisionKind = prev.decisionKind ∧
        (updateSquatState ang prev lms now calib).decisionMessage = prev.decisionMessage) ∧
      (∀ (ang : AngleFn) (prev : RepState) (lms : List Landmark) (now : ℚ)
        (calib : Option LungeCalibration), minLungeVisible lms = false →
        (updateLungeState ang prev lms now calib).decisionId = prev.decisionId ∧
        (updateLungeState ang prev lms now calib).decisionKind = prev.decisionKind ∧
        (updateLungeState ang prev lms now calib).decisionMessage = prev.decisionMessage) ∧
      (∀ (prev : RepState) (lms : List Landmark) (now : ℚ)
        (calib : Option HighKneesCalibration), minHighKneesVisible lms = false →
        (updateHighKneesState prev lms now calib).decisionId = prev.decisionId ∧
        (updateHighKneesState prev lms now calib).decisionKind = prev.decisionKind ∧
        (updateHighKneesState prev lms now calib).decisionMessage = prev.decisionMessage) ∧
      (∀ (d : DistFn) (prev : RepState) (lms : List Landmark) (now : ℚ)
        (calib : Option JumpingJackCalibration), minJumpingJackVisible lms = false →
        (updateJumpingJackState d prev lms now calib).decisionId = prev.decisionId ∧
        (updateJumpingJackState d prev lms now calib).decisionKind = prev.decisionKind ∧
        (updateJumpingJackState d prev lms now calib).decisionMessage = prev.decisionMessage) ∧
      (∀ (ang : AngleFn) (prev : RepState) (lms : List Landmark) (now : ℚ)
        (calib : Option JumpSquatCalibration), minJumpSquatVisible lms = false →
        (updateJumpSquatState ang prev lms now calib).decisionId = prev.decisionId ∧
        (updateJumpSquatState ang prev lms now calib).decisionKind = prev.decisionKind ∧
        (updateJumpSquatState ang prev lms now calib).decisionMessage = prev.decisionMessage) ∧
      (∀ (ang : AngleFn) (prev : RepState) (lms : List Landmark) (now : ℚ),
        minBurpeeVisible lms = false →
        (updateBurpeeState ang prev lms now).decisionId = prev.decisionId ∧
        (updateBurpeeState ang prev lms now).decisionKind = prev.decisionKind ∧
        (updateBurpeeState ang prev lms now).decisionMessage = prev.decisionMessage)) ∧
    ((updateSquatState (fun _ _ _ => 175)
        (updateSquatState (fun _ _ _ => 175)
          { initialRepState ExerciseId.squats with phase := Phase.down, reachedTarget := true }
          (List.replicate 29 ⟨0, 0, Option.some 1⟩) 1000 Option.none)
        [] 1300 Option.none).decisionKind = DecisionKind.rep ∧
      (updateSquatState (fun _ _ _ => 175)
        { initialRepState ExerciseId.squats with phase := Phase.down, reachedTarget := true }
        (List.replicate 29 ⟨0, 0, Option.some 1⟩) 1000 Option.none).decisionKind =
        DecisionKind.rep ∧
      (updateSquatState (fun _ _ _ => 175)
        (updateSquatState (fun _ _ _ => 175)
          { initialRepState ExerciseId.squats with phase := Phase.down, reachedTarget := true }
          (List.replicate 29 ⟨0, 0, Option.some 1⟩) 1000 Option.none)
        [] 1300 Option.none).phase = Phase.unknown) := by
  refine ⟨⟨?_, ?_, ?_, ?_, ?_, ?_⟩, ?_⟩
  · intro ang prev lms now calib h
    rw [updateSquatState_gate_fail ang prev lms now calib h]
    simp
  · intro ang prev lms now calib h
    rw [updateLungeState_gate_fail ang prev lms now calib h]
    simp
  · intro prev lms now calib h
    rw [updateHighKneesState_gate_fail prev lms now calib h]
    simp
  · intro d prev lms now calib h
    rw [updateJumpingJackState_gate_fail d prev lms now calib h]
    simp
  · intro ang prev lms now calib h
    rw [updateJumpSquatState_gate_fail ang prev lms now calib h]
    simp
  · intro ang prev lms now h
    rw [updateBurpeeState_gate_fail ang prev lms now h]
    simp
  · with_unfolding_all decide

/-- C10 witness: an empty landmark list at 42ms keeps the previous state's
`rep` decision event (id 7) verbatim. -/
theorem gate_failure_preserves_decision_event_witness :
    (updateSquatState (fun _ _ _ => 0)
        { initialRepState ExerciseId.squats with
            decisionId := 7, decisionKind := DecisionKind.rep,
            decisionMessage := "Rep counted." }
        [] 42 Option.none).decisionId =
      ({ initialRepState ExerciseId.squats with
          decisionId := 7, decisionKind := DecisionKind.rep,
          decisionMessage := "Rep counted." } : RepState).decisionId ∧
    (updateSquatState (fun _ _ _ => 0)
        { initialRepState ExerciseId.squats with
            decisionId := 7, decisionKind := DecisionKind.rep,
            decisionMessage := "Rep counted." }
        [] 42 Option.none).decisionKind =
      ({ initialRepState ExerciseId.squats with
          decisionId := 7, decisionKind := DecisionKind.rep,
          decisionMessage := "Rep counted." } : RepState).decisionKind ∧
    (updateSquatState (fun _ _ _ => 0)
        { initialRepState ExerciseId.squats with
            decisionId := 7, decisionKind := DecisionKind.rep,
            decisionMessage := "Rep counted." }
        [] 42 Option.none).decisionMessage =
      ({ initialRepState ExerciseId.squats with
          decisionId := 7, decisionKind := DecisionKind.rep,
          decisionMessage := "Rep counted." } : RepState).decisionMessage :=
  gate_failure_preserves_decision_event.1.1 (fun _ _ _ => 0)
    { initialRepState ExerciseId.squats with
        decisionId := 7, decisionKind := DecisionKind.rep,
        decisionMessage := "Rep counted." }
    [] 42 Option.none (by with_unfolding_all decide)

/-- C7: the hands-free calibration updater only captures a step when the
stability predicate held on an unbroken run of frames spanning at least
900ms (some stable frame `f` at least 900ms old with every frame from `f` on
stable) and more than 700ms have passed since the last capture; and the
concrete trace whose stability is interrupted at 890ms (stable at 100, 500
and 990ms, interrupted at 1000ms) captures nothing. -/
theorem autoCalib_capture_requires_full_stability_window :
    (∀ (s0 : AutoCalibState) (L : List (Bool × ℚ)) (ok : Bool) (t : ℚ),
      s0.lastOkMs = 0 →
      List.Pairwise (fun a b : Bool × ℚ => a.2 < b.2) L →
      (autoCalibUpdate (autoCalibRunState s0 L) ok t).2 = true →
      ok = true ∧
      t - (autoCalibRunState s0 L).lastCaptureMs > 700 ∧
      ∃ f ∈ L, f.1 = true ∧ t - f.2 ≥ 900 ∧ ∀ g ∈ L, g.2 ≥ f.2 → g.1 = true) ∧
    autoCalibRunCaptures
        { active := true, step := 0, stableMs := 0, lastOkMs := 0, lastCaptureMs := 0 }
        [(true, 100), (true, 500), (true, 990), (false, 1000), (true, 1100), (true, 1500)] =
      [false, false, false, false, false, false] := by
  constructor
  · intro s0 L ok t h1 h2 h3
    exact autoCalib_capture_sound s0 L ok t h1 h2 h3
  · with_unfolding_all decide

/-- C7 witness: a trace stable at 100ms and 600ms followed by a stable frame
at 1001ms (a 901ms unbroken window, cooldown satisfied) does capture, and the
theorem recovers the witnessing stable frame. -/
theorem autoCalib_capture_requires_full_stability_window_witness :
    true = true ∧
    (1001 : ℚ) -
        (autoCalibRunState
          { active := true, step := 0, stableMs := 0, lastOkMs := 0, lastCaptureMs := 0 }
          [(true, 100), (true, 600)]).lastCaptureMs > 700 ∧
    ∃ f ∈ [((true : Bool), (100 : ℚ)), (true, 600)], f.1 = true ∧ (1001 : ℚ) - f.2 ≥ 900 ∧
      ∀ g ∈ [((true : Bool), (100 : ℚ)), (true, 600)], g.2 ≥ f.2 → g.1 = true :=
  autoCalib_capture_requires_full_stability_window.1
    { active := true, step := 0, stableMs := 0, lastOkMs := 0, lastCaptureMs := 0 }
    [(true, 100), (true, 600)] true 1001 rfl
    (by with_unfolding_all decide) (by with_unfolding_all decide)

/-- C8: without a calibration profile the jumping-jack leg-spread hysteresis
is exactly enter > 1.45 / exit > 1.25: with the arms condition satisfied and
the debounce window passed, a `closed` state moves to `open` iff the
ankle-to-shoulder ratio exceeds 1.45, and an `open` state remains `open` iff
the ratio exceeds 1.25. -/
theorem jumpingJack_default_spread_hysteresis :
    (∀ (prev : RepState) (ratio lift now : ℚ),
      prev.phase = Phase.closed → now - prev.lastPhaseChangeMs > 180 → lift > 0.03 →
      ((updateJumpingJackStateCore prev ratio lift now Option.none).phase = Phase.«open» ↔
        ratio > 1.45)) ∧
    (∀ (prev : RepState) (ratio lift now : ℚ),
      prev.phase = Phase.«open» → now - prev.lastPhaseChangeMs > 180 → lift > 0.03 →
      ((updateJumpingJackStateCore prev ratio lift now Option.none).phase = Phase.«open» ↔
        ratio > 1.25)) := by
  constructor
  · intro prev ratio lift now hphase ht hlift
    simp only [updateJumpingJackStateCore, hphase, decide_eq_true ht, decide_eq_true hlift]
    by_cases hr : ratio > (1.45 : ℚ) <;> simp [hr]
  · intro prev ratio lift now hphase ht hlift
    simp only [updateJumpingJackStateCore, hphase, decide_eq_true ht, decide_eq_true hlift]
    by_cases hr : ratio > (1.25 : ℚ) <;> simp [hr]

/-- C8 witness: from `closed` with ratio 1.5, lift 0.04 and 200ms elapsed the
threshold equivalence instantiates to a ratio above the 1.45 enter value. -/
theorem jumpingJack_default_spread_hysteresis_witness :
    (updateJumpingJackStateCore
        { initialRepState ExerciseId.jumping_jacks with phase := Phase.closed }
        1.5 0.04 200 Option.none).phase = Phase.«open» ↔ (1.5 : ℚ) > 1.45 :=
  jumpingJack_default_spread_hysteresis.1
    { initialRepState ExerciseId.jumping_jacks with phase := Phase.closed }
    1.5 0.04 200 rfl (by norm_num [initialRepState]) (by norm_num)

/-- C9: when the sampling window has elapsed (`now - startedMs > 900`), the
auto bar locator either — with at least 10 collected confident samples
(current frame included) — sets the bar line at the clamped
`median - 0.02` with horizontal extent 0.05 … 0.95 and finishes, or —
with fewer than 10 samples — aborts back to `idle` leaving the bar line
untouched. -/
theorem barAuto_window_elapse_behavior
    (samplesRef : List ℚ) (startedMs nowMs : ℚ) (lw rw : Option Landmark) (bar : Option BarLine)
    (helapsed : nowMs - startedMs > 900) :
    ((pushedBarSamples samplesRef lw rw).length ≥ 10 →
      barAutoFrame samplesRef startedMs nowMs lw rw bar =
        ([], BarAutoState.done,
          Option.some
            ⟨clamp (median (pushedBarSamples samplesRef lw rw) - 0.02) 0.02 0.98,
              0.05, 0.95⟩)) ∧
    ((pushedBarSamples samplesRef lw rw).length < 10 →
      barAutoFrame samplesRef startedMs nowMs lw rw bar = ([], BarAutoState.idle, bar)) := by
  constructor
  · intro h10
    simp [barAutoFrame, helapsed, h10]
  · intro hlt
    simp [barAutoFrame, helapsed, not_le.2 hlt]

/-- C9 witness: nine buffered samples plus a confident wrist pair at height
0.5 make ten samples with median 0.5, so at 901ms the locator sets the line
at y = 0.48 spanning x = 0.05 … 0.95. -/
theorem barAuto_window_elapse_behavior_witness :
    barAutoFrame [0.5, 0.4, 0.6, 0.45, 0.55, 0.5, 0.5, 0.5, 0.5] 0 901
        (Option.some ⟨0, 0.5, Option.some 1⟩) (Option.some ⟨0, 0.5, Option.some 1⟩)
        Option.none =
      ([], BarAutoState.done, Option.some ⟨0.48, 0.05, 0.95⟩) :=
  ((barAuto_window_elapse_behavior [0.5, 0.4, 0.6, 0.45, 0.55, 0.5, 0.5, 0.5, 0.5] 0 901
      (Option.some ⟨0, 0.5, Option.some 1⟩) (Option.some ⟨0, 0.5, Option.some 1⟩)
      Option.none (by norm_num)).1
    (by with_unfolding_all decide)).trans (by with_unfolding_all decide)

/-- C6: `classifyRep` computes exactly the label the spec describes: sloppy
when the tempo is positive and below the exercise's minimum tempo (380/300/
520/700/750/650ms), otherwise clean when ROM% ≥ 70, ok when 50 ≤ ROM% < 70,
sloppy when ROM% < 50, and ok when ROM% is undefined. -/
theorem classifyRep_matches_spec :
    ∀ (exercise : ExerciseId) (romPct : Option ℚ) (tempoMs : ℚ),
      classifyRep exercise romPct tempoMs = classifyRepSpec exercise romPct tempoMs := by
  intro ex rom t
  cases ex <;> cases rom <;>
    simp [classifyRep, classifyRepSpec, specMinTempo, ge_iff_le, gt_iff_lt]

/-- C1: with the default (uncalibrated) squat thresholds, the knee-angle
sequence [175, 175, 100, 100, 175] with at least 220ms between consecutive
samples and at least 700ms between the 100°-frame and the final 175°-frame
yields exactly one `rep` decision (the final frame) and ends with
`repCount = 1`. -/
theorem squat_default_sequence_counts_one_rep
    (t0 t1 t2 t3 t4 : ℚ) (h0 : 0 ≤ t0)
    (h1 : t1 - t0 ≥ 220) (h2 : t2 - t1 ≥ 220) (h3 : t3 - t2 ≥ 220) (h4 : t4 - t3 ≥ 220)
    (h5 : t4 - t2 ≥ 700) :
    (squatTrace (initialRepState ExerciseId.squats)
        [(175, t0), (175, t1), (100, t2), (100, t3), (175, t4)]).map RepState.decisionKind =
      [DecisionKind.none, DecisionKind.none, DecisionKind.none, DecisionKind.none,
        DecisionKind.rep] ∧
    (squatTrace (initialRepState ExerciseId.squats)
        [(175, t0), (175, t1), (100, t2), (100, t3), (175, t4)]).map RepState.repCount =
      [0, 0, 0, 0, 1] := by
  have hA : t2 - t0 > 220 := by linarith
  have hB : t4 - t2 > 220 := by linarith
  have hC : t4 - (0 : ℚ) > 700 := by linarith
  simp only [squatTrace, initialRepState, updateSquatStateCore, List.map]
  norm_num +decide [hA, hB, hC]
  linarith

/-- C1 witness: the concrete timing 0, 220, 440, 660, 1360 satisfies every
hypothesis and produces the single-rep trace. -/
theorem squat_default_sequence_counts_one_rep_witness :
    (squatTrace (initialRepState ExerciseId.squats)
        [(175, 0), (175, 220), (100, 440), (100, 660), (175, 1360)]).map RepState.decisionKind =
      [DecisionKind.none, DecisionKind.none, DecisionKind.none, DecisionKind.none,
        DecisionKind.rep] ∧
    (squatTrace (initialRepState ExerciseId.squats)
        [(175, 0), (175, 220), (100, 440), (100, 660), (175, 1360)]).map RepState.repCount =
      [0, 0, 0, 0, 1] :=
  squat_default_sequence_counts_one_rep 0 220 440 660 1360
    (by norm_num) (by norm_num) (by norm_num) (by norm_num) (by norm_num) (by norm_num)

/-- C2 counterexample: the same angle sequence with 221ms between consecutive
samples places the final up-transition 442ms (< 700ms) after the down-phase
entry, yet from the initial state the code counts a `rep` (repCount 1) instead
of rejecting: the 700ms check compares against `lastRepMs` (initially 0), not
against the down-phase entry. -/
theorem squat_fast_cycle_counts_rep_counterexample :
    (squatTrace (initialRepState ExerciseId.squats)
        [(175, 0), (175, 221), (100, 442), (100, 663), (175, 884)]).map RepState.decisionKind =
      [DecisionKind.none, DecisionKind.none, DecisionKind.none, DecisionKind.none,
        DecisionKind.rep] ∧
    (squatTrace (initialRepState ExerciseId.squats)
        [(175, 0), (175, 221), (100, 442), (100, 663), (175, 884)]).map RepState.repCount =
      [0, 0, 0, 0, 1] ∧ ((884 : ℚ) - 442 < 700) := by
  with_unfolding_all decide

/-- C2 (amended): a squat up-transition taken within 700ms of the state's last
counted-rep timestamp `lastRepMs` (not of the down-phase entry), with the
depth flag set, produces a `reject` decision with the "Too fast. Slow down."
message and leaves `repCount` unchanged. -/
theorem squat_reject_too_fast_of_recent_rep
    (prev : RepState) (kneeAngle now : ℚ)
    (hphase : prev.phase = Phase.down)
    (hrt : prev.reachedTarget = true)
    (hup : (updateSquatStateCore prev kneeAngle now Option.none).phase = Phase.up)
    (hfast : now - prev.lastRepMs ≤ 700) :
    (updateSquatStateCore prev kneeAngle now Option.none).decisionKind = DecisionKind.reject ∧
    (updateSquatStateCore prev kneeAngle now Option.none).decisionMessage =
      "Too fast. Slow down." ∧
    (updateSquatStateCore prev kneeAngle now Option.none).repCount = prev.repCount := by
  have hns : ¬(700 < now - prev.lastRepMs) := not_lt.2 hfast
  simp only [updateSquatStateCore, hphase] at hup ⊢
  norm_num +decide [hrt, hns] at hup ⊢
  simp [hup, hns]

/-- C2 witness: from a mid-session state whose last rep was counted at 600ms,
an up-transition at 900ms (300ms later) is rejected as too fast. -/
theorem squat_reject_too_fast_of_recent_rep_witness :
    (updateSquatStateCore
        { initialRepState ExerciseId.squats with
            phase := Phase.down, reachedTarget := true, lastRepMs := 600 }
        175 900 Option.none).decisionKind = DecisionKind.reject ∧
    (updateSquatStateCore
        { initialRepState ExerciseId.squats with
            phase := Phase.down, reachedTarget := true, lastRepMs := 600 }
        175 900 Option.none).decisionMessage = "Too fast. Slow down." ∧
    (updateSquatStateCore
        { initialRepState ExerciseId.squats with
            phase := Phase.down, reachedTarget := true, lastRepMs := 600 }
        175 900 Option.none).repCount =
      ({ initialRepState ExerciseId.squats with
          phase := Phase.down, reachedTarget := true, lastRepMs := 600 } : RepState).repCount :=
  squat_reject_too_fast_of_recent_rep _ 175 900 rfl rfl
    (by with_unfolding_all decide) (by norm_num)

end Replike
